import Mathlib

/-!
Verification of the quickpin-api client (`quickpin_api/qpi.py`): a shallow
embedding of the `QPI` class — credential resolution, batched profile
submission, and search — together with theorems about its behaviour.

HTTP transport is modelled as an oracle: each outbound request is answered by
a caller-supplied response (or a network failure).  Following the spec's HTTP
layer contract, a non-2xx status raised by `raise_for_status` and a
network-level failure are both mapped to the transport-error kind, while the
repository's own `QPIError` and Python's built-in `ValueError` are kept as
separate kinds.
-/

namespace QuickpinApi

/-- One profile descriptor: the dictionaries built by `submit_usernames` /
`submit_user_ids`, or handed directly to `submit_profiles`. -/
structure Profile where
  username : Option String
  upstream_id : Option String
  site : String
deriving Repr, DecidableEq

/-- An HTTP response delivered by the remote service: status code and raw body. -/
structure HttpResp where
  status : Nat
  content : String
deriving Repr, DecidableEq

/-- The error kinds surfaced by the client: `qpiError` is the repository's own
`QPIError`; `transportError` covers network failures and the exception raised
by `raise_for_status` on a non-2xx response; `valueError` is Python's built-in
`ValueError` (raised e.g. by `range` with a zero step). -/
inductive PyError where
  | qpiError (message : String)
  | transportError
  | valueError (message : String)
deriving Repr, DecidableEq

/-- The JSON payload of one profile-submission POST:
profiles list plus the stub flag. -/
structure Payload where
  profiles : List Profile
  stub : Bool
deriving Repr, DecidableEq

/-- Whether a status code is a success (2xx) status. -/
def is2xx (status : Nat) : Bool :=
  decide (200 ≤ status ∧ status < 300)

/-- The raw body of a transport answer (irrelevant filler on network failure). -/
def respContent : Except Unit HttpResp → String
  | Except.error _ => ""
  | Except.ok r => r.content

/-- The transport oracle answers call `n` with a success response. -/
def okResp (transport : Nat → Except Unit HttpResp) (n : Nat) : Prop :=
  ∃ r, transport n = Except.ok r ∧ is2xx r.status = true

/-- The transport oracle fails call `n`: network failure or non-2xx status. -/
def failResp (transport : Nat → Except Unit HttpResp) (n : Nat) : Prop :=
  (∃ e, transport n = Except.error e) ∨
  (∃ r, transport n = Except.ok r ∧ is2xx r.status = false)

/-- Number of elements of Python `range(start, stop, step)` (CPython's count
formula, for a nonzero step). -/
def pyRangeLen (start stop step : Int) : Nat :=
  if 0 < step then
    if start < stop then ((stop - start - 1) / step + 1).toNat else 0
  else
    if stop < start then ((start - stop - 1) / (-step) + 1).toNat else 0

/-- Python built-in `range(start, stop, step)` as a list; a zero step raises
`ValueError`. -/
def pyRange (start stop step : Int) : Except PyError (List Int) :=
  if step = 0 then Except.error (PyError.valueError "range() arg 3 must not be zero")
  else Except.ok ((List.range (pyRangeLen start stop step)).map (fun (i : Nat) => start + step * (i : Int)))

/-- Clamp one bound of a Python slice to `0..len`, resolving negative indices
from the end. -/
def sliceBound (len : Nat) (i : Int) : Nat :=
  let j := if i < 0 then i + (len : Int) else i
  (min j (len : Int)).toNat

/-- Python slice `xs[a:b]` (unit step). -/
def pySlice {α : Type} (xs : List α) (a b : Int) : List α :=
  let lo := sliceBound xs.length a
  let hi := sliceBound xs.length b
  (xs.drop lo).take (hi - lo)

/-- The mutable state of a `QPI` instance after `__init__` finished. -/
structure QPIState where
  app_url : String
  username : Option String
  password : Option String
  auth_url : String
  profile_url : String
  search_url : String
  headers : List (String × String)
  token : String
  authenticated : Bool
deriving Repr, DecidableEq

/-- Python `str.rstrip` with a slash argument: drop all trailing slashes. -/
def rstripSlash (s : String) : String :=
  s.dropRightWhile (fun c => c == '/')

/-- The JSON body of the authentication response, when the body parses as a
JSON object (`none` models a body that is not valid JSON). -/
structure LoginResp where
  status : Nat
  json : Option (List (String × String))
deriving Repr, DecidableEq

/-- Dictionary lookup in a parsed JSON object. -/
def jsonGet (j : List (String × String)) (k : String) : Option String :=
  (j.find? (fun kv => kv.1 == k)).map (fun kv => kv.2)

/-- `QPI.get_token`: POST credentials to the authentication endpoint
(`authResp` is the oracle's answer to that single POST), raise for a non-2xx
status, then read the `token` field of the JSON body; a body lacking that
field raises `QPIError` with the authentication-failed message. -/
def get_token (authResp : Except Unit LoginResp) (username password : Option String) :
    Except PyError String :=
  match authResp with
  | Except.error _ => Except.error PyError.transportError
  | Except.ok r =>
    if is2xx r.status then
      match r.json with
      | none => Except.error (PyError.valueError "No JSON object could be decoded")
      | some j =>
        match jsonGet j "token" with
        | none => Except.error (PyError.qpiError "Authentication failed.")
        | some t => Except.ok t
    else Except.error PyError.transportError

/-- The state built by the tail of `QPI.__init__` once a token is in hand:
URLs derived from `app_url`, the `X-Auth` header, and `authenticated = True`. -/
def mkState (app_url : String) (tok : String) (username password : Option String) : QPIState :=
  { app_url := rstripSlash app_url
  , username := username
  , password := password
  , auth_url := app_url ++ "/api/authentication/"
  , profile_url := app_url ++ "/api/profile/"
  , search_url := app_url ++ "/api/search/"
  , headers := [("X-Auth", tok)]
  , token := tok
  , authenticated := true }

/-- The login path of `QPI.__init__`: resolve the token via `get_token`
(one POST to the authentication endpoint, hence the count 1). -/
def initViaLogin (app_url : String) (username password : Option String)
    (authResp : Except Unit LoginResp) : Except PyError QPIState × Nat :=
  match get_token authResp username password with
  | Except.error e => (Except.error e, 1)
  | Except.ok t => (Except.ok (mkState app_url t username password), 1)

/-- `QPI.__init__`: keep a supplied non-empty token unchanged, otherwise log
in.  The second component counts POSTs to the authentication endpoint. -/
def QPI.init (app_url : String) (token : Option String) (username password : Option String)
    (authResp : Except Unit LoginResp) : Except PyError QPIState × Nat :=
  match token with
  | none => initViaLogin app_url username password authResp
  | some t =>
    if t = "" then initViaLogin app_url username password authResp
    else (Except.ok (mkState app_url t username password), 0)

/-- Everything observable about one `submit_profiles` call: the payloads
POSTed in dispatch order, the raw bodies collected, the total time slept, and
the returned value or raised error. -/
structure SubmitTrace where
  posts : List Payload
  responses : List String
  slept : Nat
  result : Except PyError (List String)
deriving Repr

/-- The `for chunk_start in range(...)` loop of `submit_profiles`: slice the
chunk, POST it (the oracle answers call number `posts.length`), raise on a
failed response, append the raw body, sleep `interval`, continue. -/
def submitLoop (transport : Nat → Except Unit HttpResp) (profiles : List Profile)
    (stub : Bool) (chunk_size : Int) (interval : Nat) :
    List Int → List Payload → List String → Nat → SubmitTrace
  | [], posts, responses, slept =>
      { posts := posts, responses := responses, slept := slept
      , result := Except.ok responses }
  | chunk_start :: rest, posts, responses, slept =>
      let chunk := pySlice profiles chunk_start (chunk_start + chunk_size)
      let payload : Payload := { profiles := chunk, stub := stub }
      match transport posts.length with
      | Except.error _ =>
          { posts := posts ++ [payload], responses := responses, slept := slept
          , result := Except.error PyError.transportError }
      | Except.ok r =>
          if is2xx r.status then
            submitLoop transport profiles stub chunk_size interval rest
              (posts ++ [payload]) (responses ++ [r.content]) (slept + interval)
          else
            { posts := posts ++ [payload], responses := responses, slept := slept
            , result := Except.error PyError.transportError }

/-- `QPI.submit_profiles`: guard on `authenticated`, then loop over
`range(0, len(profiles), chunk_size)` POSTing each slice. -/
def submit_profiles (qpi : QPIState) (transport : Nat → Except Unit HttpResp)
    (profiles : List Profile) (stub : Bool) (chunk_size : Int) (interval : Nat) : SubmitTrace :=
  if qpi.authenticated = true then
    match pyRange 0 profiles.length chunk_size with
    | Except.error e =>
        { posts := [], responses := [], slept := 0, result := Except.error e }
    | Except.ok starts =>
        submitLoop transport profiles stub chunk_size interval starts [] [] 0
  else
    { posts := [], responses := [], slept := 0
    , result := Except.error (PyError.qpiError "Please authenticate first.") }

/-- `QPI.submit_usernames`: map each username to a descriptor with that
username and the shared site, then delegate to `submit_profiles`. -/
def submit_usernames (qpi : QPIState) (transport : Nat → Except Unit HttpResp)
    (usernames : List String) (site : String) (stub : Bool) (chunk_size : Int)
    (interval : Nat) : SubmitTrace :=
  submit_profiles qpi transport
    (usernames.map (fun u => { username := some u, upstream_id := none, site := site }))
    stub chunk_size interval

/-- `QPI.submit_user_ids`: map each id to a descriptor with that upstream id
and the shared site, then delegate to `submit_profiles`. -/
def submit_user_ids (qpi : QPIState) (transport : Nat → Except Unit HttpResp)
    (user_ids : List String) (site : String) (stub : Bool) (chunk_size : Int)
    (interval : Nat) : SubmitTrace :=
  submit_profiles qpi transport
    (user_ids.map (fun u => { username := none, upstream_id := some u, site := site }))
    stub chunk_size interval

/-- The GET request issued by `search`: target URL, headers, and the query
string passed as the `params` argument. -/
structure GetReq where
  url : String
  headers : List (String × String)
  params : String
deriving Repr, DecidableEq

/-- Split a character list on a separator character. -/
def splitOnChar (c : Char) : List Char → List (List Char)
  | [] => [[]]
  | x :: xs =>
    match splitOnChar c xs with
    | [] => if x == c then [[], []] else [[x]]
    | r :: rs => if x == c then [] :: r :: rs else (x :: r) :: rs

/-- The keys of a query string of the form `k1=v1&k2=v2&...`: for each
`&`-separated piece, the characters before the first `=`. -/
def paramKeys (s : String) : List String :=
  (splitOnChar '&' s.data).map (fun kv => String.mk (kv.takeWhile (fun ch => !(ch == '='))))

/-- `QPI.search`: guard on `authenticated`; build the base parameter dict
(query, rpp, page), join it into `param_str`, then add the optional entries to
the dict — but issue the GET with `param_str`, exactly as the source does.
Returns the outcome and the request issued (none when the guard raised). -/
def search (qpi : QPIState) (transport : Except Unit HttpResp) (query : String)
    ( type_ : Option String) (facets : Option String) (rpp : Int) (page : Int)
    (sort : Option String) : Except PyError HttpResp × Option GetReq :=
  if qpi.authenticated = true then
    let params : List (String × String) :=
      [("query", query), ("rpp", toString rpp), ("page", toString page)]
    let param_str := "&".intercalate (params.map (fun kv => kv.1 ++ "=" ++ kv.2))
    let params := params ++ (match type_ with | none => [] | some t => [("type", t)])
    let params := params ++ (match facets with | none => [] | some f => [("facets", f)])
    let params := params ++ (match sort with | none => [] | some s => [("sort", s)])
    let _ := params
    let req : GetReq := { url := qpi.search_url, headers := qpi.headers, params := param_str }
    match transport with
    | Except.error _ => (Except.error PyError.transportError, some req)
    | Except.ok r =>
        if is2xx r.status then (Except.ok r, some req)
        else (Except.error PyError.transportError, some req)
  else
    (Except.error (PyError.qpiError "Please authenticate first."), none)

/-- A transport oracle that answers every request with a 200 response. -/
def allOkTransport : Nat → Except Unit HttpResp :=
  fun _ => Except.ok { status := 200, content := "ok" }

/-- A client state as produced by a construction with a supplied token. -/
def demoState : QPIState := mkState "http://example.com" "tok" none none

/-- Sample profile descriptors. -/
def pA : Profile := { username := some "a", upstream_id := none, site := "twitter" }

def pB : Profile := { username := some "b", upstream_id := none, site := "twitter" }

def pC : Profile := { username := some "c", upstream_id := none, site := "twitter" }

/-! ## Characterization of the Python `range` and slice primitives -/

lemma sliceBound_natCast (len n : Nat) : sliceBound len (n : Int) = min n len := by
  unfold sliceBound
  rw [if_neg (by omega : ¬ ((n : Int) < 0))]
  show ((n : Int) ⊓ (len : Int)).toNat = n ⊓ len
  rw [← Nat.cast_min, Int.toNat_ofNat]

lemma pySlice_natCast {α : Type} (xs : List α) (a c : Nat) :
    pySlice xs (a : Int) ((a : Int) + (c : Int)) = (xs.drop a).take c := by
  rw [show ((a : Int) + (c : Int)) = ((a + c : Nat) : Int) by push_cast; ring]
  simp only [pySlice, sliceBound_natCast]
  rcases Nat.le_total a xs.length with h | h
  · rw [Nat.min_eq_left h]
    rcases Nat.le_total (a + c) xs.length with h2 | h2
    · rw [Nat.min_eq_left h2, Nat.add_sub_cancel_left]
    · rw [Nat.min_eq_right h2]
      rw [List.take_of_length_le (by simp [List.length_drop]),
          List.take_of_length_le (by simp [List.length_drop]; omega)]
  · rw [Nat.min_eq_right h, Nat.min_eq_right (by omega : xs.length ≤ a + c)]
    simp [List.drop_eq_nil_of_le h]

lemma pyRange_natCast (N C : Nat) (hC : 1 ≤ C) :
    pyRange 0 (N : Int) (C : Int) =
      Except.ok ((List.range ((N + C - 1) / C)).map (fun i => ((C * i : Nat) : Int))) := by
  unfold pyRange
  rw [if_neg (by exact_mod_cast (by omega : ¬ (C = 0)))]
  congr 1
  have hlen : pyRangeLen 0 (N : Int) (C : Int) = (N + C - 1) / C := by
    unfold pyRangeLen
    rw [if_pos (by exact_mod_cast hC : (0 : Int) < (C : Int))]
    by_cases hN : 0 < N
    · rw [if_pos (by exact_mod_cast hN : (0 : Int) < (N : Int))]
      rw [show ((N : Int) - 0 - 1) = ((N - 1 : Nat) : Int) by push_cast [hN]; ring]
      rw [← Int.ofNat_ediv]
      rw [show (((N - 1) / C : Nat) : Int) + 1 = (((N - 1) / C + 1 : Nat) : Int) by push_cast; ring]
      rw [Int.toNat_ofNat]
      rw [show N + C - 1 = (N - 1) + C by omega, Nat.add_div_right _ (by omega)]
    · rw [if_neg (by exact_mod_cast hN)]
      have : N = 0 := by omega
      subst this
      rw [Nat.div_eq_of_lt (by omega)]
  rw [hlen]
  apply List.map_congr_left
  intro i _
  push_cast
  ring

/-! ## The submission loop under an all-successful transport -/

lemma submitLoop_ok (transport : Nat → Except Unit HttpResp) (profiles : List Profile)
    (stub : Bool) (C : Nat) (I : Nat) (hok : ∀ n, okResp transport n) :
    ∀ (k : Nat) (j : Nat) (posts : List Payload) (responses : List String) (slept : Nat),
    submitLoop transport profiles stub (C : Int) I
        ((List.range k).map (fun i => ((C * (j + i) : Nat) : Int))) posts responses slept
      = { posts := posts ++ (List.range k).map
            (fun i => { profiles := (profiles.drop (C * (j + i))).take C, stub := stub })
        , responses := responses ++ (List.range k).map
            (fun i => respContent (transport (posts.length + i)))
        , slept := slept + k * I
        , result := Except.ok (responses ++ (List.range k).map
            (fun i => respContent (transport (posts.length + i)))) } := by
  intro k
  induction k with
  | zero =>
    intro j posts responses slept
    simp [submitLoop]
  | succ k ih =>
    intro j posts responses slept
    rw [List.range_succ_eq_map]
    simp only [List.map_cons, List.map_map]
    obtain ⟨r, hr, h2⟩ := hok posts.length
    unfold submitLoop
    rw [show ((C * (j + 0) : Nat) : Int) + (C : Int) = ((C * (j + 0) + C : Nat) : Int)
        by push_cast; ring]
    rw [show ((C * (j + 0) + C : Nat) : Int)
          = ((C * (j + 0) : Nat) : Int) + ((C : Nat) : Int) by push_cast; ring]
    rw [pySlice_natCast profiles (C * (j + 0)) C]
    rw [hr]
    simp only [h2, if_pos]
    have hstarts : List.map ((fun (i : Nat) => ((C * (j + i) : Nat) : Int)) ∘ Nat.succ)
          (List.range k)
        = List.map (fun (i : Nat) => ((C * ((j + 1) + i) : Nat) : Int)) (List.range k) :=
      List.map_congr_left (fun i _ => by
        show ((C * (j + Nat.succ i) : Nat) : Int) = ((C * ((j + 1) + i) : Nat) : Int)
        have harg : j + Nat.succ i = (j + 1) + i := by omega
        rw [harg])
    rw [hstarts, ih (j + 1)]
    have hpay : List.map (fun i =>
          ({ profiles := (profiles.drop (C * ((j + 1) + i))).take C, stub := stub } : Payload))
          (List.range k)
        = List.map ((fun i =>
          ({ profiles := (profiles.drop (C * (j + i))).take C, stub := stub } : Payload))
            ∘ Nat.succ) (List.range k) :=
      List.map_congr_left (fun i _ => by
        show ({ profiles := (profiles.drop (C * ((j + 1) + i))).take C, stub := stub } : Payload)
          = { profiles := (profiles.drop (C * (j + Nat.succ i))).take C, stub := stub }
        have harg : (j + 1) + i = j + Nat.succ i := by omega
        rw [harg])
    have hresp : List.map (fun i => respContent (transport
          ((posts ++ [({ profiles := (profiles.drop (C * (j + 0))).take C, stub := stub }
            : Payload)]).length + i))) (List.range k)
        = List.map ((fun i => respContent (transport (posts.length + i))) ∘ Nat.succ)
            (List.range k) :=
      List.map_congr_left (fun i _ => by
        show respContent (transport ((posts ++ [_]).length + i))
          = respContent (transport (posts.length + Nat.succ i))
        congr 2
        simp [List.length_append]
        omega)
    rw [hpay, hresp]
    simp only [Nat.add_zero, hr, respContent, List.append_assoc, List.singleton_append,
      SubmitTrace.mk.injEq, true_and, and_true]
    ring

/-- `submit_profiles` under an authenticated state, a positive chunk size and
an all-successful transport: the full trace, in closed form.  `K` is the
number of chunks, `ceil(N / C)`. -/
lemma submit_profiles_ok (qpi : QPIState) (transport : Nat → Except Unit HttpResp)
    (profiles : List Profile) (stub : Bool) (C : Nat) (I : Nat)
    (hauth : qpi.authenticated = true) (hC : 1 ≤ C) (hok : ∀ n, okResp transport n) :
    submit_profiles qpi transport profiles stub (C : Int) I
      = { posts := (List.range ((profiles.length + C - 1) / C)).map
            (fun i => { profiles := (profiles.drop (C * i)).take C, stub := stub })
        , responses := (List.range ((profiles.length + C - 1) / C)).map
            (fun n => respContent (transport n))
        , slept := ((profiles.length + C - 1) / C) * I
        , result := Except.ok ((List.range ((profiles.length + C - 1) / C)).map
            (fun n => respContent (transport n))) } := by
  unfold submit_profiles
  rw [if_pos hauth, pyRange_natCast _ _ hC]
  have hz : List.map (fun (i : Nat) => ((C * i : Nat) : Int))
        (List.range ((profiles.length + C - 1) / C))
      = List.map (fun (i : Nat) => ((C * (0 + i) : Nat) : Int))
        (List.range ((profiles.length + C - 1) / C)) := by
    apply List.map_congr_left
    intro i _
    rw [Nat.zero_add]
  rw [hz]
  show submitLoop transport profiles stub (C : Int) I
      (List.map (fun (i : Nat) => ((C * (0 + i) : Nat) : Int))
        (List.range ((profiles.length + C - 1) / C))) [] [] 0 = _
  rw [submitLoop_ok transport profiles stub C I hok ((profiles.length + C - 1) / C) 0]
  simp only [List.nil_append, List.length_nil, Nat.zero_add, Nat.zero_mul]

/-! ## Chunk arithmetic -/

/-- Flattening the first `K` chunks of size `C` recovers the first `K * C`
elements. -/
lemma flatten_chunks {α : Type} (C : Nat) :
    ∀ (K : Nat) (xs : List α),
    ((List.range K).map (fun i => (xs.drop (C * i)).take C)).flatten = xs.take (K * C) := by
  intro K
  induction K with
  | zero => intro xs; simp
  | succ K ih =>
    intro xs
    rw [List.range_succ_eq_map]
    simp only [List.map_cons, List.map_map, List.flatten_cons, Nat.mul_zero, List.drop_zero]
    have hmap : List.map ((fun i => (xs.drop (C * i)).take C) ∘ Nat.succ) (List.range K)
        = List.map (fun i => ((xs.drop C).drop (C * i)).take C) (List.range K) := by
      apply List.map_congr_left
      intro i _
      show (xs.drop (C * Nat.succ i)).take C = ((xs.drop C).drop (C * i)).take C
      rw [List.drop_drop]
      have harg : C * Nat.succ i = C + C * i := by rw [Nat.succ_eq_add_one]; ring
      rw [harg]
    rw [hmap, ih (xs.drop C)]
    rw [show Nat.succ K * C = C + K * C by rw [Nat.succ_eq_add_one]; ring, List.take_add]

/-- `ceil(N / C) * C` covers all `N` elements. -/
lemma le_ceil_mul (N C : Nat) (hC : 1 ≤ C) : N ≤ ((N + C - 1) / C) * C := by
  by_cases hN : N = 0
  · simp [hN]
  · have h1 : N + C - 1 = (N - 1) + C := by omega
    rw [h1, Nat.add_div_right _ (by omega)]
    have h2 := Nat.mod_add_div (N - 1) C
    have h3 : (N - 1) % C < C := Nat.mod_lt _ (by omega)
    have h4 : ((N - 1) / C + 1) * C = (N - 1) / C * C + C := by ring
    rw [h4]
    have h5 : C * ((N - 1) / C) = (N - 1) / C * C := by ring
    omega

/-- Every chunk before the last has exactly `C` elements. -/
lemma chunk_len_of_lt {α : Type} (xs : List α) (C i : Nat) (hC : 1 ≤ C)
    (hi : i + 1 < (xs.length + C - 1) / C) :
    ((xs.drop (C * i)).take C).length = C := by
  have hN : xs.length ≠ 0 := by
    intro h
    rw [h] at hi
    rw [show 0 + C - 1 = C - 1 by omega, Nat.div_eq_of_lt (by omega)] at hi
    omega
  have h1 : xs.length + C - 1 = (xs.length - 1) + C := by omega
  rw [h1, Nat.add_div_right _ (by omega)] at hi
  have h2 : i + 1 ≤ (xs.length - 1) / C := by omega
  have h3 : (i + 1) * C ≤ (xs.length - 1) / C * C :=
    Nat.mul_le_mul_right _ h2
  have h4 : (xs.length - 1) / C * C ≤ xs.length - 1 := Nat.div_mul_le_self _ _
  simp only [List.length_take, List.length_drop]
  have h5 : (i + 1) * C = C * i + C := by ring
  omega

/-! ## Claims -/

/-- C1: for every profiles list of length N and chunk_size C ≥ 1 (with an
authenticated client and every POST succeeding), `submit_profiles` makes
ceil(N/C) POSTs; every chunk but possibly the last has exactly C elements;
concatenating the chunks in dispatch order reproduces the input exactly; and
the returned value is the list of raw response bodies, one per chunk, in
dispatch order. -/
theorem C1_submit_profiles_chunking (qpi : QPIState) (transport : Nat → Except Unit HttpResp)
    (profiles : List Profile) (stub : Bool) (C I : Nat)
    (hauth : qpi.authenticated = true) (hC : 1 ≤ C) (hok : ∀ n, okResp transport n) :
    (submit_profiles qpi transport profiles stub (C : Int) I).posts.length
        = (profiles.length + C - 1) / C ∧
    (∀ i, i + 1 < (submit_profiles qpi transport profiles stub (C : Int) I).posts.length →
      (((submit_profiles qpi transport profiles stub (C : Int) I).posts.getD i
          { profiles := [], stub := stub }).profiles).length = C) ∧
    ((submit_profiles qpi transport profiles stub (C : Int) I).posts.map
        Payload.profiles).flatten = profiles ∧
    (submit_profiles qpi transport profiles stub (C : Int) I).result
        = Except.ok (submit_profiles qpi transport profiles stub (C : Int) I).responses ∧
    (submit_profiles qpi transport profiles stub (C : Int) I).responses
        = (List.range (submit_profiles qpi transport profiles stub (C : Int) I).posts.length).map
            (fun n => respContent (transport n)) := by
  rw [submit_profiles_ok qpi transport profiles stub C I hauth hC hok]
  refine ⟨by simp, ?_, ?_, rfl, by simp⟩
  · intro i hi
    simp only [List.length_map, List.length_range] at hi
    have hlen : i < (List.map
        (fun i => ({ profiles := (profiles.drop (C * i)).take C, stub := stub } : Payload))
        (List.range ((profiles.length + C - 1) / C))).length := by
      simp only [List.length_map, List.length_range]
      omega
    rw [List.getD_eq_getElem _ _ hlen]
    simp only [List.getElem_map, List.getElem_range]
    exact chunk_len_of_lt profiles C i hC hi
  · simp only [List.map_map]
    have hcomp : (Payload.profiles ∘ fun i =>
          ({ profiles := (profiles.drop (C * i)).take C, stub := stub } : Payload))
        = fun i => (profiles.drop (C * i)).take C := rfl
    rw [hcomp, flatten_chunks, List.take_of_length_le (le_ceil_mul _ _ hC)]

/-- Witness for C1 at profiles = [pA, pB, pC], C = 2, I = 0. -/
theorem C1_submit_profiles_chunking_witness :
    demoState.authenticated = true ∧ 1 ≤ 2 ∧ (∀ n, okResp allOkTransport n) ∧
    ((submit_profiles demoState allOkTransport [pA, pB, pC] false ((2 : Nat) : Int) 0).posts.length
        = ([pA, pB, pC].length + 2 - 1) / 2 ∧
    (∀ i, i + 1 < (submit_profiles demoState allOkTransport [pA, pB, pC] false
          ((2 : Nat) : Int) 0).posts.length →
      (((submit_profiles demoState allOkTransport [pA, pB, pC] false
          ((2 : Nat) : Int) 0).posts.getD i { profiles := [], stub := false }).profiles).length
        = 2) ∧
    ((submit_profiles demoState allOkTransport [pA, pB, pC] false
        ((2 : Nat) : Int) 0).posts.map Payload.profiles).flatten = [pA, pB, pC] ∧
    (submit_profiles demoState allOkTransport [pA, pB, pC] false ((2 : Nat) : Int) 0).result
        = Except.ok (submit_profiles demoState allOkTransport [pA, pB, pC] false
            ((2 : Nat) : Int) 0).responses ∧
    (submit_profiles demoState allOkTransport [pA, pB, pC] false
        ((2 : Nat) : Int) 0).responses
      = (List.range (submit_profiles demoState allOkTransport [pA, pB, pC] false
          ((2 : Nat) : Int) 0).posts.length).map (fun n => respContent (allOkTransport n))) :=
  ⟨rfl, by omega, fun n => ⟨{ status := 200, content := "ok" }, rfl, rfl⟩,
    C1_submit_profiles_chunking demoState allOkTransport [pA, pB, pC] false 2 0 rfl
      (by omega) (fun n => ⟨{ status := 200, content := "ok" }, rfl, rfl⟩)⟩

/-- C7: `submit_usernames` maps each identifier, in input order, to a
descriptor carrying that username and the shared site, and delegates to
`submit_profiles`; in the 5-username scenario with chunk_size 2 it makes
exactly 3 POSTs whose payloads hold the username/site descriptors in input
positions. -/
theorem C7_submit_usernames_mapping (qpi : QPIState) (transport : Nat → Except Unit HttpResp)
    (stub : Bool) (hauth : qpi.authenticated = true) (hok : ∀ n, okResp transport n) :
    (∀ (usernames : List String) (site : String) (chunk_size : Int) (interval : Nat),
      submit_usernames qpi transport usernames site stub chunk_size interval
        = submit_profiles qpi transport
            (usernames.map (fun u => { username := some u, upstream_id := none, site := site }))
            stub chunk_size interval) ∧
    (submit_usernames qpi transport ["a", "b", "c", "d", "e"] "twitter" stub
        ((2 : Nat) : Int) 0).posts
      = [ { profiles := [ { username := some "a", upstream_id := none, site := "twitter" }
                        , { username := some "b", upstream_id := none, site := "twitter" } ]
          , stub := stub }
        , { profiles := [ { username := some "c", upstream_id := none, site := "twitter" }
                        , { username := some "d", upstream_id := none, site := "twitter" } ]
          , stub := stub }
        , { profiles := [ { username := some "e", upstream_id := none, site := "twitter" } ]
          , stub := stub } ] := by
  refine ⟨fun _ _ _ _ => rfl, ?_⟩
  show (submit_profiles qpi transport
      (["a", "b", "c", "d", "e"].map
        (fun u => { username := some u, upstream_id := none, site := "twitter" }))
      stub ((2 : Nat) : Int) 0).posts = _
  rw [submit_profiles_ok qpi transport _ stub 2 0 hauth (by omega) hok]
  rfl

/-- Witness for C7 under the always-succeeding transport. -/
theorem C7_submit_usernames_mapping_witness :
    demoState.authenticated = true ∧ (∀ n, okResp allOkTransport n) ∧
    (submit_usernames demoState allOkTransport ["a", "b", "c", "d", "e"] "twitter" false
        ((2 : Nat) : Int) 0).posts
      = [ { profiles := [ { username := some "a", upstream_id := none, site := "twitter" }
                        , { username := some "b", upstream_id := none, site := "twitter" } ]
          , stub := false }
        , { profiles := [ { username := some "c", upstream_id := none, site := "twitter" }
                        , { username := some "d", upstream_id := none, site := "twitter" } ]
          , stub := false }
        , { profiles := [ { username := some "e", upstream_id := none, site := "twitter" } ]
          , stub := false } ] :=
  ⟨rfl, fun n => ⟨{ status := 200, content := "ok" }, rfl, rfl⟩,
    (C7_submit_usernames_mapping demoState allOkTransport false rfl
      (fun n => ⟨{ status := 200, content := "ok" }, rfl, rfl⟩)).2⟩

/-- C8: for an empty profiles list and any chunk_size ≥ 1, `submit_profiles`
makes zero POSTs and returns an empty response sequence rather than an
error. -/
theorem C8_empty_profiles (qpi : QPIState) (transport : Nat → Except Unit HttpResp)
    (stub : Bool) (C I : Nat) (hauth : qpi.authenticated = true) (hC : 1 ≤ C) :
    (submit_profiles qpi transport [] stub (C : Int) I).posts = [] ∧
    (submit_profiles qpi transport [] stub (C : Int) I).slept = 0 ∧
    (submit_profiles qpi transport [] stub (C : Int) I).result = Except.ok [] := by
  unfold submit_profiles
  rw [if_pos hauth]
  rw [show (([] : List Profile).length : Int) = ((0 : Nat) : Int) from rfl]
  rw [pyRange_natCast 0 C hC]
  rw [show (0 + C - 1) / C = 0 from Nat.div_eq_of_lt (by omega)]
  exact ⟨rfl, rfl, rfl⟩

/-- Witness for C8 at C = 3. -/
theorem C8_empty_profiles_witness :
    demoState.authenticated = true ∧ 1 ≤ 3 ∧
    ((submit_profiles demoState allOkTransport [] false ((3 : Nat) : Int) 5).posts = [] ∧
    (submit_profiles demoState allOkTransport [] false ((3 : Nat) : Int) 5).slept = 0 ∧
    (submit_profiles demoState allOkTransport [] false ((3 : Nat) : Int) 5).result
      = Except.ok []) :=
  ⟨rfl, by omega, C8_empty_profiles demoState allOkTransport false 3 5 rfl (by omega)⟩

/-- C9: when all chunks succeed, the total time slept by `submit_profiles` is
at least (K - 1) * I, where K is the number of chunks dispatched (the code in
fact sleeps K * I). -/
theorem C9_pacing (qpi : QPIState) (transport : Nat → Except Unit HttpResp)
    (profiles : List Profile) (stub : Bool) (C I : Nat)
    (hauth : qpi.authenticated = true) (hC : 1 ≤ C) (hok : ∀ n, okResp transport n) :
    ((submit_profiles qpi transport profiles stub (C : Int) I).posts.length - 1) * I
      ≤ (submit_profiles qpi transport profiles stub (C : Int) I).slept := by
  rw [submit_profiles_ok qpi transport profiles stub C I hauth hC hok]
  simp only [List.length_map, List.length_range]
  exact Nat.mul_le_mul_right _ (Nat.sub_le _ _)

/-- Witness for C9 at profiles = [pA, pB, pC], C = 1, I = 4. -/
theorem C9_pacing_witness :
    demoState.authenticated = true ∧ 1 ≤ 1 ∧ (∀ n, okResp allOkTransport n) ∧
    ((submit_profiles demoState allOkTransport [pA, pB, pC] false
        ((1 : Nat) : Int) 4).posts.length - 1) * 4
      ≤ (submit_profiles demoState allOkTransport [pA, pB, pC] false
          ((1 : Nat) : Int) 4).slept :=
  ⟨rfl, by omega, fun n => ⟨{ status := 200, content := "ok" }, rfl, rfl⟩,
    C9_pacing demoState allOkTransport [pA, pB, pC] false 1 4 rfl (by omega)
      (fun n => ⟨{ status := 200, content := "ok" }, rfl, rfl⟩)⟩

/-- The submission loop when the first `f` POSTs succeed and POST number `f`
(0-based) fails: the run raises the transport error and exactly `f + 1` POSTs
were issued in total. -/
lemma submitLoop_fail (transport : Nat → Except Unit HttpResp) (profiles : List Profile)
    (stub : Bool) (C : Nat) (I : Nat) :
    ∀ (f k j : Nat) (posts : List Payload) (responses : List String) (slept : Nat),
    f < k →
    (∀ n, n < posts.length + f → okResp transport n) →
    failResp transport (posts.length + f) →
    (submitLoop transport profiles stub (C : Int) I
        ((List.range k).map (fun i => ((C * (j + i) : Nat) : Int))) posts responses slept).result
      = Except.error PyError.transportError ∧
    (submitLoop transport profiles stub (C : Int) I
        ((List.range k).map (fun i => ((C * (j + i) : Nat) : Int))) posts responses
        slept).posts.length
      = posts.length + f + 1 := by
  intro f
  induction f with
  | zero =>
    intro k j posts responses slept hk hok hfail
    cases k with
    | zero => omega
    | succ k =>
      rw [List.range_succ_eq_map]
      simp only [List.map_cons, List.map_map]
      rw [Nat.add_zero] at hfail
      unfold submitLoop
      rcases hfail with ⟨e, he⟩ | ⟨r, hr, h2⟩
      · rw [he]
        simp [List.length_append]
      · rw [hr]
        simp [h2, List.length_append]
  | succ f ih =>
    intro k j posts responses slept hk hok hfail
    cases k with
    | zero => omega
    | succ k =>
      rw [List.range_succ_eq_map]
      simp only [List.map_cons, List.map_map]
      obtain ⟨r, hr, h2⟩ := hok posts.length (by omega)
      unfold submitLoop
      rw [show ((C * (j + 0) : Nat) : Int) + (C : Int) = ((C * (j + 0) : Nat) : Int) + ((C : Nat) : Int)
          from rfl]
      rw [pySlice_natCast profiles (C * (j + 0)) C]
      rw [hr]
      simp only [h2, if_pos]
      have hstarts : List.map ((fun (i : Nat) => ((C * (j + i) : Nat) : Int)) ∘ Nat.succ)
            (List.range k)
          = List.map (fun (i : Nat) => ((C * ((j + 1) + i) : Nat) : Int)) (List.range k) :=
        List.map_congr_left (fun i _ => by
          show ((C * (j + Nat.succ i) : Nat) : Int) = ((C * ((j + 1) + i) : Nat) : Int)
          have harg : j + Nat.succ i = (j + 1) + i := by omega
          rw [harg])
      rw [hstarts]
      have hlen : (posts
          ++ [({ profiles := (profiles.drop (C * (j + 0))).take C, stub := stub } : Payload)]).length
          = posts.length + 1 := by
        simp [List.length_append]
      have := ih k (j + 1)
        (posts ++ [({ profiles := (profiles.drop (C * (j + 0))).take C, stub := stub } : Payload)])
        (responses ++ [r.content]) (slept + I)
        (by omega)
        (by
          rw [hlen]
          intro n hn
          exact hok n (by omega))
        (by
          rw [hlen]
          have harg : posts.length + 1 + f = posts.length + Nat.succ f := by omega
          rw [harg]
          exact hfail)
      rw [this.1, this.2, hlen]
      exact ⟨rfl, by omega⟩

/-- C4: if the POSTs for the first `f` chunks succeed and the POST for chunk
`f + 1` (1-based: chunk j = f + 1) fails, `submit_profiles` signals the
transport error — it returns no partial response list — and exactly `f + 1`
POSTs were made, so chunks after the failing one are never dispatched. -/
theorem C4_abort_on_failure (qpi : QPIState) (transport : Nat → Except Unit HttpResp)
    (profiles : List Profile) (stub : Bool) (C I f : Nat)
    (hauth : qpi.authenticated = true) (hC : 1 ≤ C)
    (hf : f < (profiles.length + C - 1) / C)
    (hok : ∀ n, n < f → okResp transport n) (hfail : failResp transport f) :
    (submit_profiles qpi transport profiles stub (C : Int) I).result
      = Except.error PyError.transportError ∧
    (submit_profiles qpi transport profiles stub (C : Int) I).posts.length = f + 1 := by
  unfold submit_profiles
  rw [if_pos hauth, pyRange_natCast _ _ hC]
  have hz : List.map (fun (i : Nat) => ((C * i : Nat) : Int))
        (List.range ((profiles.length + C - 1) / C))
      = List.map (fun (i : Nat) => ((C * (0 + i) : Nat) : Int))
        (List.range ((profiles.length + C - 1) / C)) := by
    apply List.map_congr_left
    intro i _
    rw [Nat.zero_add]
  rw [hz]
  show (submitLoop transport profiles stub (C : Int) I
      (List.map (fun (i : Nat) => ((C * (0 + i) : Nat) : Int))
        (List.range ((profiles.length + C - 1) / C))) [] [] 0).result
      = Except.error PyError.transportError ∧
    (submitLoop transport profiles stub (C : Int) I
      (List.map (fun (i : Nat) => ((C * (0 + i) : Nat) : Int))
        (List.range ((profiles.length + C - 1) / C))) [] [] 0).posts.length = f + 1
  have := submitLoop_fail transport profiles stub C I f ((profiles.length + C - 1) / C) 0
    [] [] 0 hf (by intro n hn; exact hok n (by simpa using hn)) (by simpa using hfail)
  simpa using this

/-- Witness for C4: three one-element chunks, the second POST fails with a
500 status, so exactly two POSTs are made. -/
theorem C4_abort_on_failure_witness :
    demoState.authenticated = true ∧ 1 ≤ 1 ∧
    (1 < ([pA, pB, pC].length + 1 - 1) / 1) ∧
    (∀ n, n < 1 → okResp
      (fun n => if n = 1 then Except.ok { status := 500, content := "err" }
                else Except.ok { status := 200, content := "ok" }) n) ∧
    failResp
      (fun n => if n = 1 then Except.ok { status := 500, content := "err" }
                else Except.ok { status := 200, content := "ok" }) 1 ∧
    ((submit_profiles demoState
        (fun n => if n = 1 then Except.ok { status := 500, content := "err" }
                  else Except.ok { status := 200, content := "ok" })
        [pA, pB, pC] false ((1 : Nat) : Int) 0).result
      = Except.error PyError.transportError ∧
    (submit_profiles demoState
        (fun n => if n = 1 then Except.ok { status := 500, content := "err" }
                  else Except.ok { status := 200, content := "ok" })
        [pA, pB, pC] false ((1 : Nat) : Int) 0).posts.length = 1 + 1) := by
  refine ⟨rfl, by omega, by simp, ?_, ?_, ?_⟩
  · intro n hn
    have hn0 : n = 0 := by omega
    subst hn0
    exact ⟨{ status := 200, content := "ok" }, rfl, rfl⟩
  · exact Or.inr ⟨{ status := 500, content := "err" }, rfl, rfl⟩
  · exact C4_abort_on_failure demoState _ [pA, pB, pC] false 1 0 1 rfl (by omega) (by simp)
      (by
        intro n hn
        have hn0 : n = 0 := by omega
        subst hn0
        exact ⟨{ status := 200, content := "ok" }, rfl, rfl⟩)
      (Or.inr ⟨{ status := 500, content := "err" }, rfl, rfl⟩)

/-- C5: constructing the client with a non-empty token keeps the supplied
token unchanged and makes zero calls to the authentication endpoint. -/
theorem C5_token_short_circuit (app_url : String) (t : String) (u pw : Option String)
    (authResp : Except Unit LoginResp) (ht : t ≠ "") :
    QPI.init app_url (some t) u pw authResp = (Except.ok (mkState app_url t u pw), 0) ∧
    (mkState app_url t u pw).token = t := by
  constructor
  · unfold QPI.init
    show (if t = "" then initViaLogin app_url u pw authResp
          else (Except.ok (mkState app_url t u pw), 0)) = _
    rw [if_neg ht]
  · rfl

/-- Witness for C5 with the token string tok. -/
theorem C5_token_short_circuit_witness :
    "tok" ≠ "" ∧
    (QPI.init "http://example.com" (some "tok") none none (Except.error ())
        = (Except.ok (mkState "http://example.com" "tok" none none), 0) ∧
    (mkState "http://example.com" "tok" none none).token = "tok") :=
  ⟨by decide, C5_token_short_circuit "http://example.com" "tok" none none
    (Except.error ()) (by decide)⟩

/-- C6 counterexample: the code raises `QPIError` with the message
`Authentication failed.` — with a trailing period — so the claim's exact
message `Authentication failed` does not occur. -/
theorem C6_message_counterexample :
    get_token (Except.ok { status := 200, json := some [("id", "1")] }) none none
      = Except.error (PyError.qpiError "Authentication failed.") ∧
    get_token (Except.ok { status := 200, json := some [("id", "1")] }) none none
      ≠ Except.error (PyError.qpiError "Authentication failed") := by
  refine ⟨rfl, ?_⟩
  intro h
  rw [show get_token (Except.ok { status := 200, json := some [("id", "1")] }) none none
      = Except.error (PyError.qpiError "Authentication failed.") from rfl] at h
  have h2 : PyError.qpiError "Authentication failed."
      = PyError.qpiError "Authentication failed" := by
    injection h
  exact absurd h2 (by decide)

/-- C6 (amended): a login response that parses as JSON but lacks a token
field signals `QPIError` with message `Authentication failed.` (trailing
period), whereas a non-2xx login response signals the transport error; the
two outcomes are distinguishable error kinds. -/
theorem C6_auth_error_distinction (r1 r2 : LoginResp) (j : List (String × String))
    (u pw : Option String)
    (h1s : is2xx r1.status = true) (h1j : r1.json = some j) (h1t : jsonGet j "token" = none)
    (h2s : is2xx r2.status = false) :
    get_token (Except.ok r1) u pw = Except.error (PyError.qpiError "Authentication failed.") ∧
    get_token (Except.ok r2) u pw = Except.error PyError.transportError ∧
    PyError.qpiError "Authentication failed." ≠ PyError.transportError := by
  refine ⟨?_, ?_, by decide⟩
  · simp [get_token, h1s, h1j, h1t]
  · simp [get_token, h2s]

/-- Witness for C6 at a 200 tokenless-JSON response and a 500 response. -/
theorem C6_auth_error_distinction_witness :
    is2xx (200 : Nat) = true ∧
    (some ([] : List (String × String)) = some ([] : List (String × String))) ∧
    jsonGet [] "token" = none ∧
    is2xx (500 : Nat) = false ∧
    (get_token (Except.ok { status := 200, json := some [] }) none none
        = Except.error (PyError.qpiError "Authentication failed.") ∧
    get_token (Except.ok { status := 500, json := some [("token", "t")] }) none none
        = Except.error PyError.transportError ∧
    PyError.qpiError "Authentication failed." ≠ PyError.transportError) :=
  ⟨rfl, rfl, rfl, rfl,
    C6_auth_error_distinction { status := 200, json := some [] }
      { status := 500, json := some [("token", "t")] } [] none none rfl rfl rfl rfl⟩

/-- C2 (code evaluation at the failing inputs): `submit_profiles` performs no
chunk-size validation.  With chunk_size = -1 and a non-empty profiles list it
silently returns an empty response list with zero POSTs; with chunk_size = 0
it raises Python's built-in `ValueError` from `range`, not a configuration
error of the client. -/
theorem C2_no_chunk_size_validation :
    (submit_profiles demoState allOkTransport [pA] false (-1) 0).result = Except.ok [] ∧
    (submit_profiles demoState allOkTransport [pA] false (-1) 0).posts = [] ∧
    (submit_profiles demoState allOkTransport [pA] false 0 0).result
      = Except.error (PyError.valueError "range() arg 3 must not be zero") ∧
    (submit_profiles demoState allOkTransport [pA] false 0 0).posts = [] :=
  ⟨rfl, rfl, rfl, rfl⟩

/-- C3 (code evaluation at the failing input): `search` builds the query
string from the base parameters only and passes that string as the request
parameters, so a supplied `type` is absent from the issued GET, while query,
rpp and page are present. -/
theorem C3_search_drops_optional_params :
    (search demoState (Except.ok { status := 200, content := "res" }) "acme"
        (some "profile") none 100 1 none).2
      = some { url := "http://example.com/api/search/"
             , headers := [("X-Auth", "tok")]
             , params := "query=acme&rpp=100&page=1" } ∧
    paramKeys "query=acme&rpp=100&page=1" = ["query", "rpp", "page"] ∧
    "type" ∉ paramKeys "query=acme&rpp=100&page=1" ∧
    "sort" ∉ paramKeys "query=acme&rpp=100&page=1" ∧
    "facets" ∉ paramKeys "query=acme&rpp=100&page=1" := by
  refine ⟨rfl, by decide, by decide, by decide, by decide⟩

/-- The submission loop itself can only return the collected responses or the
transport error, never a `QPIError`. -/
lemma submitLoop_no_qpiError (transport : Nat → Except Unit HttpResp) (profiles : List Profile)
    (stub : Bool) (chunk_size : Int) (interval : Nat) :
    ∀ (starts : List Int) (posts : List Payload) (responses : List String) (slept : Nat)
      (m : String),
    (submitLoop transport profiles stub chunk_size interval starts posts responses slept).result
      ≠ Except.error (PyError.qpiError m) := by
  intro starts
  induction starts with
  | nil =>
    intro posts responses slept m
    simp [submitLoop]
  | cons s rest ih =>
    intro posts responses slept m
    unfold submitLoop
    cases htr : transport posts.length with
    | error e => simp
    | ok r =>
      cases h2 : is2xx r.status with
      | true =>
        simp only [h2, if_pos]
        exact ih _ _ _ m
      | false =>
        simp [h2]

/-- Every ok outcome of `QPI.init` is a `mkState`. -/
lemma QPI_init_ok (app_url : String) (token : Option String) (u pw : Option String)
    (authResp : Except Unit LoginResp) (s : QPIState)
    (h : (QPI.init app_url token u pw authResp).1 = Except.ok s) :
    ∃ t, s = mkState app_url t u pw := by
  unfold QPI.init at h
  cases token with
  | none =>
    unfold initViaLogin at h
    cases hg : get_token authResp u pw with
    | error e => rw [hg] at h; simp at h
    | ok t =>
      rw [hg] at h
      simp only at h
      exact ⟨t, (Except.ok.inj h).symm⟩
  | some t =>
    dsimp only at h
    by_cases ht : t = ""
    · rw [if_pos ht] at h
      unfold initViaLogin at h
      cases hg : get_token authResp u pw with
      | error e => rw [hg] at h; simp at h
      | ok t2 =>
        rw [hg] at h
        simp only at h
        exact ⟨t2, (Except.ok.inj h).symm⟩
    · rw [if_neg ht] at h
      simp only at h
      exact ⟨t, (Except.ok.inj h).symm⟩

/-- C10: every successfully constructed client has `authenticated = true`, so
the please-authenticate-first branches of `submit_profiles` and `search` can
never be taken on such a client. -/
theorem C10_authenticated_invariant (app_url : String) (token : Option String)
    (u pw : Option String) (authResp : Except Unit LoginResp) (s : QPIState)
    (h : (QPI.init app_url token u pw authResp).1 = Except.ok s) :
    s.authenticated = true ∧
    (∀ (transport : Nat → Except Unit HttpResp) (profiles : List Profile) (stub : Bool)
       (chunk_size : Int) (interval : Nat),
      (submit_profiles s transport profiles stub chunk_size interval).result
        ≠ Except.error (PyError.qpiError "Please authenticate first.")) ∧
    (∀ (gt : Except Unit HttpResp) (query : String) ( type_ facets : Option String)
       (rpp page : Int) (sort : Option String),
      (search s gt query type_ facets rpp page sort).1
        ≠ Except.error (PyError.qpiError "Please authenticate first.")) := by
  obtain ⟨t, hs⟩ := QPI_init_ok app_url token u pw authResp s h
  have hauth : s.authenticated = true := by rw [hs]; rfl
  refine ⟨hauth, ?_, ?_⟩
  · intro transport profiles stub chunk_size interval
    unfold submit_profiles
    rw [if_pos hauth]
    cases hr : pyRange 0 profiles.length chunk_size with
    | error e =>
      unfold pyRange at hr
      by_cases hz : chunk_size = 0
      · rw [if_pos hz] at hr
        have he : e = PyError.valueError "range() arg 3 must not be zero" :=
          (Except.error.inj hr).symm
        simp [he]
      · rw [if_neg hz] at hr
        simp at hr
    | ok starts =>
      exact submitLoop_no_qpiError transport profiles stub chunk_size interval starts [] [] 0 _
  · intro gt query ty fa rpp page so
    unfold search
    rw [if_pos hauth]
    cases gt with
    | error e => simp
    | ok r =>
      cases h2 : is2xx r.status with
      | true => simp [h2]
      | false => simp [h2]

/-- Witness for C10: a construction with a supplied token. -/
theorem C10_authenticated_invariant_witness :
    (QPI.init "http://example.com" (some "tok") none none (Except.error ())).1
      = Except.ok (mkState "http://example.com" "tok" none none) ∧
    ((mkState "http://example.com" "tok" none none).authenticated = true ∧
    (∀ (transport : Nat → Except Unit HttpResp) (profiles : List Profile) (stub : Bool)
       (chunk_size : Int) (interval : Nat),
      (submit_profiles (mkState "http://example.com" "tok" none none) transport profiles stub
          chunk_size interval).result
        ≠ Except.error (PyError.qpiError "Please authenticate first.")) ∧
    (∀ (gt : Except Unit HttpResp) (query : String) ( type_ facets : Option String)
       (rpp page : Int) (sort : Option String),
      (search (mkState "http://example.com" "tok" none none) gt query type_ facets rpp page
          sort).1
        ≠ Except.error (PyError.qpiError "Please authenticate first."))) :=
  ⟨rfl, C10_authenticated_invariant "http://example.com" (some "tok") none none
    (Except.error ()) (mkState "http://example.com" "tok" none none) rfl⟩

end QuickpinApi
